import Mathlib

/-!
Shallow embedding of the authorization / session subsystem of the
litestar-cqrs-example backend, together with theorems settling the
spec claims.  Each definition is translated from the Python source file
named in its doc comment; abstract collaborators (the JWT signing
library, SHA-256, the database) are passed as explicit parameters.
-/

/-- Embedding of `backend.app.contracts.exceptions.AppError`: an error value
carrying an optional message and an optional code (the `content` dict).
Subclasses only change the default message, so a single structure suffices. -/
structure AppError where
  message : Option String
  code : Option String
deriving DecidableEq, Repr

/-- Embedding of `backend.infra.shared.result.ResultImpl`: a named tuple
`(data, err)` where both components are optional.  The error type parameter
is always `AppError` in this code base. -/
structure ResultImpl (T : Type) where
  data : Option T
  err : Option AppError
deriving DecidableEq, Repr

/-- `ResultImpl.map` from `result.py`: applies `f` when `data` is present. -/
def ResultImpl.map {T R : Type} (r : ResultImpl T) (f : T → R) : ResultImpl R :=
  match r.data with
  | some d => ⟨some (f d), r.err⟩
  | none => ⟨none, r.err⟩

/-- `ResultImpl.and_then` from `result.py`: applies `f : T → Option R` to the
data when present, keeping the stored error either way.  Note that `f`
returning `None` silently produces a result with `data = None`. -/
def ResultImpl.and_then {T R : Type} (r : ResultImpl T) (f : T → Option R) : ResultImpl R :=
  match r.data with
  | some d => ⟨f d, r.err⟩
  | none => ⟨none, r.err⟩

/-- `ResultImpl.unwrap` from `result.py`: raising is modelled with `Except`.
When `data` is absent the stored `AppError` is raised, or a fresh
`AppError("Empty result")` when no error is stored. -/
def ResultImpl.unwrap {T : Type} (r : ResultImpl T) : Except AppError T :=
  match r.data with
  | some d => Except.ok d
  | none => Except.error (r.err.getD ⟨some "Empty result", none⟩)

/-- `ResultImpl.unwrap_or` from `result.py`. -/
def ResultImpl.unwrap_or {T : Type} (r : ResultImpl T) (default : T) : T :=
  r.data.getD default

/-- `ResultImpl.unwrap_or_raise` from `result.py`: raises the given error when
`data` is absent. -/
def ResultImpl.unwrap_or_raise {T : Type} (r : ResultImpl T) (e : AppError) : Except AppError T :=
  match r.data with
  | some d => Except.ok d
  | none => Except.error e

/-- `ResultImpl.is_ok` from `result.py`: `data is not None`. -/
def ResultImpl.is_ok {T : Type} (r : ResultImpl T) : Bool :=
  r.data.isSome

/-- `ResultImpl.is_err` from `result.py`: `data is None`. -/
def ResultImpl.is_err {T : Type} (r : ResultImpl T) : Bool :=
  r.data.isNone

/-- Embedding of `as_result_sync` / `as_result_async` from `result.py`.
The wrapped call is modelled as an already-evaluated `Except`: an exception
(always normalized to an `AppError` by `_normalize_exc`) or a returned value
which may be `None`.  A `None` return is converted into an error result
carrying `AppError("Empty result")`. -/
def as_result {T : Type} (call : Except AppError (Option T)) : ResultImpl T :=
  match call with
  | Except.ok (some v) => ⟨some v, none⟩
  | Except.ok none => ⟨none, some ⟨some "Empty result", none⟩⟩
  | Except.error e => ⟨none, some e⟩

/-- Embedding of `backend.app.contracts.auth.TokenClaims` (datetimes as epoch
seconds). -/
structure TokenClaims where
  sub : String
  typ : String
  iat : Option Nat
  exp : Option Nat
  iss : Option String
  aud : Option String
  jti : Option String
deriving DecidableEq, Repr

/-- Embedding of `backend.app.contracts.auth.TokenPair`. -/
structure TokenPair where
  access_token : String
  refresh_token : String
  expires_in : Nat
deriving DecidableEq, Repr

/-- `RefreshStoreImpl._get_verified_claims` from `jwt.py`, given the result of
`self._jwt.verify(token)`: keep the claims only when `typ == "refresh"`,
then `unwrap`. -/
def get_verified_claims (verify_res : ResultImpl TokenClaims) : Except AppError TokenClaims :=
  (verify_res.and_then (fun c => if c.typ = "refresh" then some c else none)).unwrap

/-- Outcome of a raw `argon2.PasswordHasher.verify` call: success, a
`VerifyMismatchError`, another `VerificationError`, or an
`InvalidHashError` for a structurally invalid hash (which is a `ValueError`,
not a `VerificationError`). -/
inductive Argon2Outcome where
  | ok
  | mismatch
  | verificationError
  | invalidHash
deriving DecidableEq, Repr

/-- Body of `Argon2.verify_password` from `hasher.py` before the `as_result`
wrapper: the `try` block catches `(VerificationError, VerifyMismatchError)`
and returns `False`; an `InvalidHashError` escapes it. -/
def verify_password_body (o : Argon2Outcome) : Except AppError (Option Bool) :=
  match o with
  | Argon2Outcome.ok => Except.ok (some true)
  | Argon2Outcome.mismatch => Except.ok (some false)
  | Argon2Outcome.verificationError => Except.ok (some false)
  | Argon2Outcome.invalidHash => Except.error ⟨some "InvalidHashError", none⟩

/-- `Argon2.verify_password` from `hasher.py`: the body wrapped by
`@as_result(is_async=False)`. -/
def verify_password (o : Argon2Outcome) : ResultImpl Bool :=
  as_result (verify_password_body o)

/-- Pointwise update of a string-keyed map, used to model Redis writes. -/
def updateFn {α : Type} (f : String → α) (k : String) (v : α) : String → α :=
  fun q => if q = k then v else f q

/-- State of the Redis cache as seen through `backend.infra.cache.redis
.RedisCache`: the string keys, the list keys, and the per-key TTL. -/
structure CacheState where
  strs : String → Option String
  lists : String → List String
  ttl : String → Option Nat

/-- The empty cache. -/
def emptyCache : CacheState :=
  ⟨fun _ => none, fun _ => [], fun _ => none⟩

/-- `RedisCache.get`: `_ensure_string(result) if result else None`, so an
empty stored string is reported as absent. -/
def CacheState.get (st : CacheState) (key : String) : Option String :=
  match st.strs key with
  | some s => if s = "" then none else some s
  | none => none

/-- `RedisCache.set` with optional expire: a plain SET replaces the value and
replaces (or removes) the TTL of the key. -/
def CacheState.set (st : CacheState) (key value : String) (expire : Option Nat) : CacheState :=
  { st with
    strs := updateFn st.strs key (some value)
    ttl := updateFn st.ttl key expire }

/-- `RedisCache.delete` on a single (non-glob) key. -/
def CacheState.delete (st : CacheState) (key : String) : CacheState :=
  { st with
    strs := updateFn st.strs key none
    lists := updateFn st.lists key []
    ttl := updateFn st.ttl key none }

/-- `RedisCache.set_list`: LPUSH all values (so the last value ends up at the
head), then EXPIRE only when `expire` is truthy (`if expire:` — both `None`
and `0` skip the EXPIRE). -/
def CacheState.set_list (st : CacheState) (key : String) (values : List String)
    (expire : Option Nat) : CacheState :=
  let newList := values.reverse ++ st.lists key
  let newTtl :=
    match expire with
    | some e => if e = 0 then st.ttl else updateFn st.ttl key (some e)
    | none => st.ttl
  { st with lists := updateFn st.lists key newList, ttl := newTtl }

/-- `RedisCache.get_list`: LRANGE 0 -1. -/
def CacheState.get_list (st : CacheState) (key : String) : List String :=
  st.lists key

/-- `RedisCache.discard`: LREM with count 0 removes all occurrences of the
value. -/
def CacheState.discard (st : CacheState) (key value : String) : CacheState :=
  { st with lists := updateFn st.lists key ((st.lists key).filter (fun v => v ≠ value)) }

/-- `RedisCache.increment`: INCRBY, treating an absent key as 0.  (Redis
errors on a non-integer value; the epoch key only ever holds integers
written by this very operation.) -/
def CacheState.increment (st : CacheState) (key : String) (amount : Int) : CacheState × Int :=
  let cur : Int := ((st.strs key).bind String.toInt?).getD 0
  let newVal := cur + amount
  ({ st with strs := updateFn st.strs key (some (toString newVal)) }, newVal)

/-- `AUTH_KEY_PREFIX.format(user_id=...)` from `backend.app.contracts.auth`:
the session-list key `auth:{user_hex}`. -/
def auth_key (user_id : String) : String :=
  "auth:" ++ user_id

/-- `RefreshStoreImpl._get_hashed_pair` from `jwt.py`, with SHA-256 as an
abstract function: `sha256(f"{fingerprint}:{token}")`, prefixed with
`claims.jti` and a colon when the jti claim is truthy (neither absent nor
the empty string). -/
def get_hashed_pair (sha256 : String → String) (claims : TokenClaims)
    (fingerprint token : String) : String :=
  let hashed := sha256 (fingerprint ++ ":" ++ token)
  match claims.jti with
  | none => hashed
  | some j => if j = "" then hashed else j ++ ":" ++ hashed

/-- Body of `RefreshStoreImpl.make_token` from `jwt.py`.  The freshly minted
`jti` (`uuid4().hex`) and the pair issued by `self._jwt.issue_pair(user_hex,
jti=jti)` are parameters, since signing is an external library call.  The
entry `f"{jti}:{sha256(...)}"` is pushed with `set_list(key, entry)` —
note: no `expire` argument is passed there. -/
def make_token (sha256 : String → String) (user_hex jti : String) (pair : TokenPair)
    (fingerprint : String) (st : CacheState) : CacheState × TokenPair :=
  let key := auth_key user_hex
  let hashed_pair := jti ++ ":" ++ sha256 (fingerprint ++ ":" ++ pair.refresh_token)
  (st.set_list key [hashed_pair] none, pair)

/-- Body of `RefreshStoreImpl.rotate` from `jwt.py`, inside the per-user lock,
for claims already verified with `typ == "refresh"`.  `issued` is the pair
returned by `self._jwt.issue_pair(claims.sub, jti=claims.jti or
uuid4().hex)`.  Membership of the recomputed entry is required; on a miss
the whole list is deleted and `None` is returned (which the surrounding
`@as_result()` turns into an error result); on a hit the old entry is
discarded and the new entry is pushed with `expire=result.expires_in`. -/
def rotate (sha256 : String → String) (claims : TokenClaims) (issued : TokenPair)
    (fingerprint token : String) (st : CacheState) : CacheState × Option TokenPair :=
  let key := auth_key claims.sub
  let hashed_pair := get_hashed_pair sha256 claims fingerprint token
  if hashed_pair ∈ st.get_list key then
    let st1 := st.discard key hashed_pair
    let new_entry := get_hashed_pair sha256 claims fingerprint issued.refresh_token
    let st2 := st1.set_list key [new_entry] (some issued.expires_in)
    (st2, some issued)
  else
    (st.delete key, none)

/-- Embedding of `backend.app.contracts.auth.Role` (the projection the
authenticator builds for `AuthUser.roles`). -/
structure Role where
  name : String
deriving DecidableEq, Repr

/-- Embedding of `backend.app.contracts.auth.AuthUser`. -/
structure AuthUser where
  id : String
  is_superuser : Bool
  email : Option String
  password : Option String
  roles : List Role
deriving DecidableEq, Repr

/-- A role row as loaded from the database (`entity.Role`): carries the
`is_superuser` flag. -/
structure DbRole where
  name : String
  is_superuser : Bool
deriving DecidableEq, Repr

/-- A user row as loaded from the database with its roles (`entity.User`). -/
structure DbUser where
  id : String
  email : Option String
  password : Option String
  roles : List DbRole
deriving DecidableEq, Repr

/-- The `AuthUser` construction inside `AuthenticatorImpl.authenticate` from
`backend/infra/security/auth.py`: `is_superuser = any(role.is_superuser for
role in user.roles)`, and roles are projected to their names. -/
def mkAuthUser (u : DbUser) : AuthUser :=
  ⟨u.id, u.roles.any (fun r => r.is_superuser), u.email, u.password,
    u.roles.map (fun r => ⟨r.name⟩)⟩

/-- Outcome of the auth middleware for one request. -/
inductive AuthOutcome where
  | unauthorized (message : String)
  | forbidden (message : String)
  | success
deriving DecidableEq, Repr

/-- `JWTAuthMiddleware.authenticate_token` from
`backend/http/v1/controllers/private/middlewares/auth.py`, for a request
whose `Authorization: Bearer` token was already extracted.  `verify_res` is
the result of `jwt.verify(encoded_token)`, `user_res` the result of
`authenticator.authenticate(manager, user_id=claims.sub)`.  The route rule
and the `_ensure_permissions` evaluation are abstract parameters: the
middleware reaches them only on the final branch. -/
def authenticate_token {Rule : Type} (verify_res : ResultImpl TokenClaims)
    (user_res : ResultImpl AuthUser) (rule : Option Rule)
    (ensure_permissions : Rule → AuthUser → AuthOutcome) : AuthOutcome :=
  match (verify_res.and_then
      (fun c => if c.typ = "access" then some c else none)).unwrap_or_raise
      ⟨some "Token is invalid or expired", none⟩ with
  | Except.error _ => AuthOutcome.unauthorized "Token is invalid or expired"
  | Except.ok _claims =>
    match user_res.unwrap_or_raise ⟨some "Unauthorized", none⟩ with
    | Except.error _ => AuthOutcome.unauthorized "Unauthorized"
    | Except.ok user =>
      if user.roles.isEmpty then AuthOutcome.forbidden "Permission denied, role is required"
      else if user.is_superuser then AuthOutcome.success
      else
        match rule with
        | none => AuthOutcome.success
        | some r => ensure_permissions r user

/-- A bus handler as a cache-state transformer that may fail, the shape over
which the command-bus middlewares from `backend/app/bus` compose. -/
def HandlerFn (R : Type) : Type :=
  CacheState → Except AppError (CacheState × R)

/-- `EPOCH_KEY` from `backend/app/bus/middlewares/cache.py`. -/
def EPOCH_KEY : String :=
  "cache:epoch"

/-- `CacheInvalidateMiddleware.__call__` from
`backend/app/bus/middlewares/cache.py`: run `call_next`, then
`cache.increment(EPOCH_KEY)`; a raising handler skips the increment. -/
def cache_invalidate_middleware {R : Type} (call_next : HandlerFn R) :
    HandlerFn R :=
  fun st =>
    match call_next st with
    | Except.ok (st1, result) => Except.ok ((st1.increment EPOCH_KEY 1).1, result)
    | Except.error e => Except.error e

/-- `QCBus.send_unwrapped` from `backend/app/bus/core.py`: resolves the
registered handler and invokes it directly, without the pre-composed
middleware chain used by `QCBus.__call__`. -/
def send_unwrapped {R : Type} (handler : HandlerFn R) : HandlerFn R :=
  handler

/-- Integer value of the epoch key, as `CacheMiddleware._epoch` reads it
before the modulus. -/
def epoch_value (st : CacheState) : Int :=
  ((st.strs EPOCH_KEY).bind String.toInt?).getD 0

/-- Embedding of `backend.app.contracts.auth.Source`. -/
inductive Source where
  | query
  | json
deriving DecidableEq, Repr

/-- The payload of the `ForbiddenError` raised by `raise_fields_not_allowed`
in `backend/http/common/tools/resolvers/default.py`: the offending field
set and its source. -/
structure FieldsErr where
  fields : List String
  source : Source
deriving DecidableEq, Repr

/-- One pass of the generator inside `resolve_keys_allowed_allowlist` from
`backend/http/common/tools/resolvers/default.py`.  `keysOf` plays the role
of `SOURCES[src](ctx)` (the request key set of a source, as a list).  Items
whose request key set is empty are filtered out by the walrus guard; an
empty `allowed` set short-circuits `not allowed or ...`; otherwise
`raise_fields_not_allowed(keys - allowed, src, ctx)` raises exactly when
the difference is non-empty. -/
def resolve_allowlist_go (keysOf : Source → List String) :
    List (Source × List String) → Option FieldsErr
  | [] => none
  | (src, allowed) :: rest =>
    let keys := keysOf src
    if keys = [] then resolve_allowlist_go keysOf rest
    else if allowed = [] then resolve_allowlist_go keysOf rest
    else
      let diff := keys.filter (fun k => ¬ allowed.contains k)
      if diff = [] then resolve_allowlist_go keysOf rest
      else some ⟨diff, src⟩

/-- `resolve_keys_allowed_allowlist` from
`backend/http/common/tools/resolvers/default.py`: `None` when the check
passes, `some` forbidden payload when it raises.  `allow_fields` is the
`p.allow_fields` mapping in iteration order. -/
def resolve_keys_allowed_allowlist (allow_fields : List (Source × List String))
    (keysOf : Source → List String) : Option FieldsErr :=
  if allow_fields = [] then none
  else resolve_allowlist_go keysOf allow_fields

/-- The parameters `RedisSharedLock.__init__` from
`backend/infra/shared/shared_lock.py` passes to `redis.lock(...)`.  Note
`blocking_timeout=blocking * 2`: Python multiplies the *boolean* by 2. -/
structure RedisLockParams where
  name : String
  timeout : Option Nat
  blocking : Bool
  blocking_timeout : Nat
deriving DecidableEq, Repr

/-- `RedisSharedLock.__init__`: builds the underlying redis lock with
`timeout=timeout`, `blocking=blocking`, `blocking_timeout=blocking * 2`. -/
def redis_shared_lock_params (name : String) (timeout : Option Nat) (blocking : Bool) :
    RedisLockParams :=
  ⟨name, timeout, blocking, (if blocking then 1 else 0) * 2⟩

/-- The lock name used by `create_rules` in `backend/http/dependencies.py`:
`async with lock("temp", timeout=20)`. -/
def create_rules_lock_name : String :=
  "temp"

/-- The lock timeout used by `create_rules` in `backend/http/dependencies.py`. -/
def create_rules_lock_timeout : Nat :=
  20

/-- The cache-marker logic of `create_rules` from `backend/http/dependencies
.py`, inside the shared lock: read the `create_rules` key and return without
writing when present; otherwise set it to "1" with TTL 30 and run the
registration (`_create()`), abstracted as the returned boolean. -/
def create_rules (st : CacheState) : CacheState × Bool :=
  match st.get "create_rules" with
  | some _ => (st, false)
  | none => (st.set "create_rules" "1" (some 30), true)

/-- JSON-like request parameter values for `_collect_keys` from
`backend/app/contracts/auth.py`: scalars, mappings, and sequences (strings
and bytes count as scalars there). -/
inductive JsonVal where
  | scalar (s : String)
  | obj (fields : List (String × JsonVal))
  | arr (items : List JsonVal)

/-- `_is_container` from `backend/app/contracts/auth.py`. -/
def is_container : JsonVal → Bool
  | JsonVal.scalar _ => false
  | JsonVal.obj _ => true
  | JsonVal.arr _ => true

mutual

/-- Recursive rendering of the stack walk in `_collect_keys` from
`backend/app/contracts/auth.py`: a container popped at `depth > max_depth`
raises `ValueError("keys collection max_depth exceeded")`; a mapping
contributes its keys and pushes its container values at `depth + 1`;
a sequence pushes its container items; scalars are never pushed (so they
are never depth-checked). -/
def collect_go (max_depth : Nat) : Nat → JsonVal → Except String (List String)
  | _, JsonVal.scalar _ => Except.ok []
  | depth, JsonVal.obj fields =>
    if depth > max_depth then Except.error "keys collection max_depth exceeded"
    else
      match collect_fields max_depth (depth + 1) fields with
      | Except.ok rest => Except.ok (fields.map Prod.fst ++ rest)
      | Except.error e => Except.error e
  | depth, JsonVal.arr items =>
    if depth > max_depth then Except.error "keys collection max_depth exceeded"
    else collect_items max_depth (depth + 1) items

/-- Keys collected from the values of a mapping's items. -/
def collect_fields (max_depth : Nat) : Nat → List (String × JsonVal) →
    Except String (List String)
  | _, [] => Except.ok []
  | depth, (_, v) :: rest =>
    match collect_go max_depth depth v with
    | Except.ok a =>
      match collect_fields max_depth depth rest with
      | Except.ok b => Except.ok (a ++ b)
      | Except.error e => Except.error e
    | Except.error e => Except.error e

/-- Keys collected from the items of a sequence. -/
def collect_items (max_depth : Nat) : Nat → List JsonVal → Except String (List String)
  | _, [] => Except.ok []
  | depth, v :: rest =>
    match collect_go max_depth depth v with
    | Except.ok a =>
      match collect_items max_depth depth rest with
      | Except.ok b => Except.ok (a ++ b)
      | Except.error e => Except.error e
    | Except.error e => Except.error e

end

/-- `_collect_keys(data, max_depth=...)` from `backend/app/contracts/auth.py`,
started at depth 0 (the set of collected keys is reported as a list). -/
def collect_keys (max_depth : Nat) (data : JsonVal) : Except String (List String) :=
  collect_go max_depth 0 data

/-- Modelled from the spec: "`Context` exposes the distinct top-level key sets
of query/json/path params" — the set of top-level keys of a parameter
mapping, for comparison with `collect_keys`. -/
def spec_top_level_keys : JsonVal → List String
  | JsonVal.obj fields => fields.map Prod.fst
  | _ => []

/-- A mapping nested to the given container depth. -/
def nested_obj : Nat → JsonVal
  | 0 => JsonVal.scalar "v"
  | n + 1 => JsonVal.obj [("k", nested_obj n)]

/-- Claim C10: the `as_result` adapter maps a `None` return to an error result
carrying `AppError("Empty result")`; a result is ok exactly when its data is
present, and a result with absent data always carries an error (so an
ok-with-`None` is unrepresentable through the adapter); and feeding the
refresh store's claim check a verified token whose `typ` is not "refresh"
makes `unwrap` produce the `Empty result` error rather than a `None`
value. -/
theorem as_result_empty_result_invariant :
    (∀ (T : Type), as_result (T := T) (Except.ok none) =
      ⟨none, some ⟨some "Empty result", none⟩⟩) ∧
    (∀ (T : Type) (call : Except AppError (Option T)),
      (as_result call).is_ok = true ↔ (as_result call).data ≠ none) ∧
    (∀ (T : Type) (call : Except AppError (Option T)),
      (as_result call).data = none → (as_result call).err ≠ none) ∧
    (∀ claims : TokenClaims, claims.typ ≠ "refresh" →
      get_verified_claims ⟨some claims, none⟩ =
        Except.error ⟨some "Empty result", none⟩) := by
  refine ⟨fun T => rfl, fun T call => ?_, fun T call h => ?_, fun claims h => ?_⟩
  · cases call with
    | ok o => cases o <;> simp [as_result, ResultImpl.is_ok]
    | error e => simp [as_result, ResultImpl.is_ok]
  · cases call with
    | ok o => cases o <;> simp_all [as_result]
    | error e => simp [as_result]
  · simp [get_verified_claims, ResultImpl.and_then, ResultImpl.unwrap, h]

/-- Witness for C10: concrete evaluation on an access-typed token. -/
theorem as_result_empty_result_invariant_witness :
    get_verified_claims ⟨some ⟨"0af", "access", none, none, none, none, none⟩, none⟩ =
      Except.error ⟨some "Empty result", none⟩ :=
  as_result_empty_result_invariant.2.2.2 ⟨"0af", "access", none, none, none, none, none⟩
    (by decide)

/-- Claim C9 counterexample: on a structurally invalid hash the Argon2 wrapper
does not return `false` — the `InvalidHashError` escapes the inner `except`
clause (it is not a `VerificationError`) and `as_result` converts it into an
error result. -/
theorem verify_password_cex :
    (verify_password Argon2Outcome.invalidHash).data ≠ some false ∧
    (verify_password Argon2Outcome.invalidHash).is_err = true := by
  decide

/-- Claim C9 amended: `verify_password` returns ok-`false` on a mismatch and on
other verification errors, ok-`true` only on a match, and on a structurally
invalid hash it returns an error result (still never raising to the
caller). -/
theorem verify_password_amended :
    verify_password Argon2Outcome.ok = ⟨some true, none⟩ ∧
    verify_password Argon2Outcome.mismatch = ⟨some false, none⟩ ∧
    verify_password Argon2Outcome.verificationError = ⟨some false, none⟩ ∧
    (verify_password Argon2Outcome.invalidHash).data = none ∧
    (verify_password Argon2Outcome.invalidHash).err =
      some ⟨some "InvalidHashError", none⟩ := by
  decide

/-- Claim C5 counterexample: for the lock constructed with `timeout=15` in
blocking mode, the acquisition bound passed to redis is `blocking * 2 = 2`
seconds, not `2 * 15`. -/
theorem shared_lock_cex :
    (redis_shared_lock_params "lock:auth:0af" (some 15) true).blocking_timeout = 2 ∧
    (2 : Nat) ≠ 2 * 15 := by
  decide

/-- Claim C5 amended: in blocking mode acquisition blocks for at most 2 seconds
(`blocking_timeout = blocking * 2`, independent of the configured timeout),
while the holder's lease is the configured timeout. -/
theorem shared_lock_amended (name : String) (t : Nat) :
    (redis_shared_lock_params name (some t) true).blocking_timeout = 2 ∧
    (redis_shared_lock_params name (some t) true).timeout = some t ∧
    (redis_shared_lock_params name (some t) false).blocking_timeout = 0 :=
  ⟨rfl, rfl, rfl⟩

/-- Claim C6 counterexample: the bootstrapper's lock is named "temp", not
"bootstrap". -/
theorem bootstrap_lock_name_cex :
    create_rules_lock_name = "temp" ∧ create_rules_lock_name ≠ "bootstrap" := by
  decide

/-- Claim C6 amended: the bootstrapper runs under `SharedLock("temp",
timeout=20)`; inside the lock it returns without any write when the
`create_rules` marker is present, and otherwise sets the marker to "1" with
TTL 30 before registering, so an immediate retry is a no-op. -/
theorem bootstrap_marker_amended (st : CacheState) :
    create_rules_lock_name = "temp" ∧
    create_rules_lock_timeout = 20 ∧
    ((st.get "create_rules").isSome = true → create_rules st = (st, false)) ∧
    (st.get "create_rules" = none →
      (create_rules st).2 = true ∧
      (create_rules st).1.strs "create_rules" = some "1" ∧
      (create_rules st).1.ttl "create_rules" = some 30 ∧
      create_rules (create_rules st).1 = ((create_rules st).1, false)) := by
  refine ⟨rfl, rfl, fun h => ?_, fun h => ?_⟩
  · cases hm : st.get "create_rules" with
    | some v => simp [create_rules, hm]
    | none => rw [hm] at h; simp at h
  · refine ⟨?_, ?_, ?_, ?_⟩
    · simp [create_rules, h]
    · simp [create_rules, h, CacheState.set, updateFn]
    · simp [create_rules, h, CacheState.set, updateFn]
    · have h1 : create_rules st = (st.set "create_rules" "1" (some 30), true) := by
        simp [create_rules, h]
      rw [h1]
      simp [create_rules, CacheState.set, CacheState.get, updateFn]

/-- Witness for C6 amended: concrete run on the empty cache. -/
theorem bootstrap_marker_amended_witness :
    (create_rules emptyCache).2 = true ∧
    (create_rules emptyCache).1.strs "create_rules" = some "1" ∧
    (create_rules emptyCache).1.ttl "create_rules" = some 30 ∧
    create_rules (create_rules emptyCache).1 = ((create_rules emptyCache).1, false) :=
  (bootstrap_marker_amended emptyCache).2.2.2 rfl

/-- Claim C3 counterexample: a successful write dispatched through the command
bus's `send_unwrapped` (the path used by the login endpoint) leaves the
cache state — and hence the epoch key — completely unchanged: zero bumps,
not exactly one. -/
theorem bus_epoch_cex :
    send_unwrapped (fun st => Except.ok (st, "login")) emptyCache =
      Except.ok (emptyCache, "login") ∧
    emptyCache.strs EPOCH_KEY = none ∧
    epoch_value emptyCache = 0 :=
  ⟨rfl, rfl, rfl⟩

/-- Claim C3 amended: a write dispatched through the bus's pre-composed
middleware chain (`QCBus.__call__`) bumps the epoch exactly once, after the
handler succeeded; a failing handler produces no bump; and `send_unwrapped`
— used by the public auth endpoints — invokes the handler with no
middleware at all, so those writes never bump the epoch. -/
theorem bus_epoch_amended {R : Type} (handler : HandlerFn R) (st st1 : CacheState)
    (r : R) (e : AppError) :
    (handler st = Except.ok (st1, r) →
      cache_invalidate_middleware handler st =
        Except.ok ((st1.increment EPOCH_KEY 1).1, r) ∧
      (st1.increment EPOCH_KEY 1).1.strs EPOCH_KEY =
        some (toString (epoch_value st1 + 1))) ∧
    (handler st = Except.error e →
      cache_invalidate_middleware handler st = Except.error e) ∧
    send_unwrapped handler = handler := by
  refine ⟨fun h => ⟨?_, ?_⟩, fun h => ?_, rfl⟩
  · simp [cache_invalidate_middleware, h]
  · simp [CacheState.increment, updateFn, epoch_value]
  · simp [cache_invalidate_middleware, h]

/-- Witness for C3 amended: concrete successful handler through the
invalidation middleware. -/
theorem bus_epoch_amended_witness :
    cache_invalidate_middleware (fun st => Except.ok (st, 7)) emptyCache =
      Except.ok ((emptyCache.increment EPOCH_KEY 1).1, 7) ∧
    (emptyCache.increment EPOCH_KEY 1).1.strs EPOCH_KEY =
      some (toString (epoch_value emptyCache + 1)) :=
  (bus_epoch_amended (fun st => Except.ok (st, 7)) emptyCache emptyCache 7
    ⟨none, none⟩).1 rfl

/-- Claim C2: for a request whose access token verifies (`typ == "access"`)
and whose user loads, the middleware raises Forbidden when the user has no
roles — before any rule or permission lookup, whatever the route rule and
its evaluation would do — and short-circuits to success when any of the
user's roles is a superuser role, again regardless of the rule. -/
theorem auth_middleware_roles_gate {Rule : Type} (verify_res : ResultImpl TokenClaims)
    (user_res : ResultImpl AuthUser) (db_user : DbUser) (rule : Option Rule)
    (ensure_permissions : Rule → AuthUser → AuthOutcome)
    (hvalid : (verify_res.and_then
      (fun c => if c.typ = "access" then some c else none)).data.isSome = true)
    (huser : user_res.data = some (mkAuthUser db_user)) :
    (db_user.roles = [] →
      authenticate_token verify_res user_res rule ensure_permissions =
        AuthOutcome.forbidden "Permission denied, role is required") ∧
    ((∃ r, r ∈ db_user.roles ∧ r.is_superuser = true) →
      authenticate_token verify_res user_res rule ensure_permissions =
        AuthOutcome.success) := by
  obtain ⟨c, hc⟩ := Option.isSome_iff_exists.mp hvalid
  constructor
  · intro hroles
    simp [authenticate_token, ResultImpl.unwrap_or_raise, hc, huser, mkAuthUser, hroles]
  · rintro ⟨r, hr, hsup⟩
    have hne : db_user.roles ≠ [] := by
      intro h0
      rw [h0] at hr
      cases hr
    have hsuper : db_user.roles.any (fun ro => ro.is_superuser) = true :=
      List.any_eq_true.mpr ⟨r, hr, hsup⟩
    simp [authenticate_token, ResultImpl.unwrap_or_raise, hc, huser, mkAuthUser, hsuper,
      List.isEmpty_iff, List.map_eq_nil_iff, hne]

/-- Witness for C2: a roleless user is rejected and a superuser bypasses a
rule whose evaluation would deny. -/
theorem auth_middleware_roles_gate_witness :
    (authenticate_token ⟨some ⟨"0af", "access", none, none, none, none, none⟩, none⟩
      ⟨some (mkAuthUser ⟨"0af", none, none, []⟩), none⟩ (none : Option Unit)
      (fun _ _ => AuthOutcome.success) =
      AuthOutcome.forbidden "Permission denied, role is required") ∧
    (authenticate_token ⟨some ⟨"0af", "access", none, none, none, none, none⟩, none⟩
      ⟨some (mkAuthUser ⟨"0af", none, none, [⟨"admin", true⟩]⟩), none⟩ (some ())
      (fun _ _ => AuthOutcome.forbidden "denied by rule") = AuthOutcome.success) := by
  constructor
  · exact (auth_middleware_roles_gate _ _ ⟨"0af", none, none, []⟩ _ _
      (by decide) rfl).1 rfl
  · exact (auth_middleware_roles_gate _ _ ⟨"0af", none, none, [⟨"admin", true⟩]⟩ _ _
      (by decide) rfl).2 ⟨⟨"admin", true⟩, by decide, rfl⟩

/-- Claim C7 counterexample: `make_token` pushes the login session entry with
no `expire` argument, so on a fresh key the list is left with no TTL at all
— not the pair's `expires_in`. -/
theorem session_list_ttl_cex :
    (make_token (fun s => s) "0af" "j" ⟨"acc", "ref", 3600⟩ "fp" emptyCache).1.ttl
      (auth_key "0af") = none ∧
    TokenPair.expires_in ⟨"acc", "ref", 3600⟩ = 3600 ∧
    (none : Option Nat) ≠ some 3600 := by
  refine ⟨rfl, rfl, by decide⟩

/-- Claim C7 amended: only `rotate` sets the session list's TTL (to the new
pair's non-zero `expires_in`); `make_token` pushes its entry without
touching any TTL. -/
theorem session_list_ttl_amended (sha256 : String → String) (user_hex jti : String)
    (pair : TokenPair) (fingerprint : String) (st : CacheState)
    (claims : TokenClaims) (issued : TokenPair) (token : String)
    (hmem : get_hashed_pair sha256 claims fingerprint token ∈
      st.get_list (auth_key claims.sub))
    (hexp : issued.expires_in ≠ 0) :
    ((make_token sha256 user_hex jti pair fingerprint st).1.ttl = st.ttl) ∧
    ((rotate sha256 claims issued fingerprint token st).1.ttl (auth_key claims.sub) =
      some issued.expires_in) := by
  constructor
  · rfl
  · simp [rotate, hmem, CacheState.set_list, CacheState.discard, hexp, updateFn]

/-- Witness for C7 amended: a concrete rotation stamps the refresh TTL onto
the session list. -/
theorem session_list_ttl_amended_witness :
    (rotate (fun s => s) ⟨"0af", "refresh", none, none, none, none, some "j"⟩
      ⟨"acc2", "ref2", 3600⟩ "fp" "ref1"
      (emptyCache.set_list (auth_key "0af") ["j:fp:ref1"] none)).1.ttl
      (auth_key "0af") = some 3600 :=
  (session_list_ttl_amended (fun s => s) "0af" "j" ⟨"acc", "ref", 1⟩ "fp"
    (emptyCache.set_list (auth_key "0af") ["j:fp:ref1"] none)
    ⟨"0af", "refresh", none, none, none, none, some "j"⟩ ⟨"acc2", "ref2", 3600⟩ "ref1"
    (by decide) (by decide)).2

/-- Claim C1: for a verified refresh token whose claims carry a (non-empty)
`jti`, the recomputed entry has the form `jti:sha256(fingerprint:token)`;
when it is a member of the `auth:{user_hex}` list, `rotate` removes it,
pushes the entry of the newly issued refresh token (same `jti` prefix) and
returns the new pair; when it is not a member, `rotate` deletes the whole
list and fails (returns `None`, which `as_result` turns into an error
result).  The new entry is assumed distinct from the old one, as holds for
a fresh refresh token. -/
theorem rotate_correct (sha256 : String → String) (claims : TokenClaims)
    (issued : TokenPair) (fingerprint token : String) (st : CacheState) (j : String)
    (hjti : claims.jti = some j) (hj : j ≠ "")
    (hne : get_hashed_pair sha256 claims fingerprint issued.refresh_token ≠
      get_hashed_pair sha256 claims fingerprint token) :
    (get_hashed_pair sha256 claims fingerprint token =
      j ++ ":" ++ sha256 (fingerprint ++ ":" ++ token)) ∧
    (get_hashed_pair sha256 claims fingerprint token ∈ st.get_list (auth_key claims.sub) →
      (rotate sha256 claims issued fingerprint token st).2 = some issued ∧
      get_hashed_pair sha256 claims fingerprint token ∉
        (rotate sha256 claims issued fingerprint token st).1.get_list
          (auth_key claims.sub) ∧
      get_hashed_pair sha256 claims fingerprint issued.refresh_token =
        j ++ ":" ++ sha256 (fingerprint ++ ":" ++ issued.refresh_token) ∧
      get_hashed_pair sha256 claims fingerprint issued.refresh_token ∈
        (rotate sha256 claims issued fingerprint token st).1.get_list
          (auth_key claims.sub)) ∧
    (get_hashed_pair sha256 claims fingerprint token ∉ st.get_list (auth_key claims.sub) →
      (rotate sha256 claims issued fingerprint token st).2 = none ∧
      (rotate sha256 claims issued fingerprint token st).1.get_list
        (auth_key claims.sub) = [] ∧
      (as_result (Except.ok
        (rotate sha256 claims issued fingerprint token st).2)).is_err = true) := by
  have hne' : get_hashed_pair sha256 claims fingerprint token ≠
      get_hashed_pair sha256 claims fingerprint issued.refresh_token :=
    fun h => hne h.symm
  refine ⟨by simp [get_hashed_pair, hjti, hj], fun hmem => ?_, fun hmem => ?_⟩
  · have hm : get_hashed_pair sha256 claims fingerprint token ∈
        st.lists (auth_key claims.sub) := hmem
    refine ⟨?_, ?_, by simp [get_hashed_pair, hjti, hj], ?_⟩
    · simp [rotate, hmem]
    · simp [rotate, hmem, hm, CacheState.get_list, CacheState.set_list, CacheState.discard,
        updateFn, List.mem_filter, hne']
    · simp [rotate, hmem, hm, CacheState.get_list, CacheState.set_list, CacheState.discard,
        updateFn, List.mem_filter]
  · have hm : get_hashed_pair sha256 claims fingerprint token ∉
        st.lists (auth_key claims.sub) := hmem
    refine ⟨?_, ?_, ?_⟩
    · simp [rotate, hmem]
    · simp [rotate, hmem, hm, CacheState.get_list, CacheState.delete, updateFn]
    · simp [rotate, hmem, as_result, ResultImpl.is_err]

/-- Witness for C1: a concrete rotation of a listed session, and a concrete
replay attempt on an unlisted one. -/
theorem rotate_correct_witness :
    ((rotate (fun s => s) ⟨"0af", "refresh", none, none, none, none, some "j"⟩
      ⟨"acc2", "ref2", 3600⟩ "fp" "ref1"
      (emptyCache.set_list (auth_key "0af") ["j:fp:ref1"] none)).2 =
        some ⟨"acc2", "ref2", 3600⟩) ∧
    ((rotate (fun s => s) ⟨"0af", "refresh", none, none, none, none, some "j"⟩
      ⟨"acc2", "ref2", 3600⟩ "fp" "ref1" emptyCache).1.get_list
        (auth_key "0af") = []) := by
  constructor
  · exact ((rotate_correct (fun s => s) ⟨"0af", "refresh", none, none, none, none, some "j"⟩
      ⟨"acc2", "ref2", 3600⟩ "fp" "ref1"
      (emptyCache.set_list (auth_key "0af") ["j:fp:ref1"] none) "j" rfl (by decide)
      (by decide)).2.1 (by decide)).1
  · exact ((rotate_correct (fun s => s) ⟨"0af", "refresh", none, none, none, none, some "j"⟩
      ⟨"acc2", "ref2", 3600⟩ "fp" "ref1" emptyCache "j" rfl (by decide)
      (by decide)).2.2 (by decide)).2.1

/-- The initial `if not p.allow_fields` guard is redundant with the generator:
the resolver equals the fold over the mapping items. -/
theorem resolve_keys_allowed_allowlist_eq_go (allow_fields : List (Source × List String))
    (keysOf : Source → List String) :
    resolve_keys_allowed_allowlist allow_fields keysOf =
      resolve_allowlist_go keysOf allow_fields := by
  cases allow_fields with
  | nil => simp [resolve_keys_allowed_allowlist, resolve_allowlist_go]
  | cons a l => simp [resolve_keys_allowed_allowlist]

/-- The allow-list fold passes exactly when every mapping item has an empty
request key set, an empty allow set, or an empty difference. -/
theorem resolve_allowlist_go_none_iff (keysOf : Source → List String)
    (af : List (Source × List String)) :
    resolve_allowlist_go keysOf af = none ↔
      ∀ e ∈ af, keysOf e.1 = [] ∨ e.2 = [] ∨
        (keysOf e.1).filter (fun k => ¬ e.2.contains k) = [] := by
  induction af with
  | nil => simp [resolve_allowlist_go]
  | cons hd tl ih =>
    obtain ⟨src, allowed⟩ := hd
    simp only [resolve_allowlist_go]
    rw [List.forall_mem_cons]
    by_cases h1 : keysOf src = []
    · rw [if_pos h1, ih]
      exact (and_iff_right (Or.inl h1)).symm
    · rw [if_neg h1]
      by_cases h2 : allowed = []
      · rw [if_pos h2, ih]
        exact (and_iff_right (Or.inr (Or.inl h2))).symm
      · rw [if_neg h2]
        by_cases h3 : (keysOf src).filter (fun k => ¬ allowed.contains k) = []
        · rw [if_pos h3, ih]
          exact (and_iff_right (Or.inr (Or.inr h3))).symm
        · rw [if_neg h3]
          constructor
          · intro h
            simp at h
          · intro hall
            exact absurd ((hall.1.resolve_left h1).resolve_left h2) h3

/-- When the allow-list fold raises, the reported payload is the non-empty
difference of one of the mapping items. -/
theorem resolve_allowlist_go_some (keysOf : Source → List String)
    (af : List (Source × List String)) :
    ∀ err : FieldsErr, resolve_allowlist_go keysOf af = some err →
      ∃ e ∈ af, e.1 = err.source ∧ keysOf e.1 ≠ [] ∧ e.2 ≠ [] ∧
        err.fields = (keysOf e.1).filter (fun k => ¬ e.2.contains k) ∧
        err.fields ≠ [] := by
  induction af with
  | nil => intro err h; simp [resolve_allowlist_go] at h
  | cons hd tl ih =>
    obtain ⟨src, allowed⟩ := hd
    intro err h
    simp only [resolve_allowlist_go] at h
    by_cases h1 : keysOf src = []
    · rw [if_pos h1] at h
      obtain ⟨e, he, hrest⟩ := ih err h
      exact ⟨e, List.mem_cons_of_mem _ he, hrest⟩
    · rw [if_neg h1] at h
      by_cases h2 : allowed = []
      · rw [if_pos h2] at h
        obtain ⟨e, he, hrest⟩ := ih err h
        exact ⟨e, List.mem_cons_of_mem _ he, hrest⟩
      · rw [if_neg h2] at h
        by_cases h3 : (keysOf src).filter (fun k => ¬ allowed.contains k) = []
        · rw [if_pos h3] at h
          obtain ⟨e, he, hrest⟩ := ih err h
          exact ⟨e, List.mem_cons_of_mem _ he, hrest⟩
        · rw [if_neg h3] at h
          injection h with h4
          subst h4
          exact ⟨(src, allowed), List.mem_cons_self _ _, rfl, h1, h2, rfl, h3⟩

/-- Claim C4 counterexample: a permission whose allow-list maps QUERY to the
empty set lets a request with QUERY key "a" through (`not allowed or ...`
short-circuits on the falsy empty set), although the set difference
`request_keys(QUERY) − allow_fields[QUERY] = {"a"}` is non-empty — no 403
is raised. -/
theorem allowlist_cex :
    resolve_keys_allowed_allowlist [(Source.query, [])] (fun _ => ["a"]) = none ∧
    (["a"].filter (fun k => ¬ ([] : List String).contains k)) = ["a"] ∧
    (["a"] : List String) ≠ [] := by
  refine ⟨by decide, by decide, by decide⟩

/-- Claim C4 amended: the allow-list resolver passes iff every source listed in
`p.allow_fields` has an empty request key set, an empty allow set, or an
empty difference `request_keys(src) − allow_fields[src]`; when it raises
Forbidden, the reported field set is that non-empty difference for one of
the listed sources.  Sources absent from the mapping, with no request keys,
or with an empty allow set are never checked. -/
theorem allowlist_amended (allow_fields : List (Source × List String))
    (keysOf : Source → List String) :
    (resolve_keys_allowed_allowlist allow_fields keysOf = none ↔
      ∀ e ∈ allow_fields, keysOf e.1 = [] ∨ e.2 = [] ∨
        (keysOf e.1).filter (fun k => ¬ e.2.contains k) = []) ∧
    (∀ err : FieldsErr, resolve_keys_allowed_allowlist allow_fields keysOf = some err →
      ∃ e ∈ allow_fields, e.1 = err.source ∧ keysOf e.1 ≠ [] ∧ e.2 ≠ [] ∧
        err.fields = (keysOf e.1).filter (fun k => ¬ e.2.contains k) ∧
        err.fields ≠ []) := by
  rw [resolve_keys_allowed_allowlist_eq_go]
  exact ⟨resolve_allowlist_go_none_iff keysOf allow_fields,
    resolve_allowlist_go_some keysOf allow_fields⟩

/-- The request key sets used in the C4 witness. -/
def demo_request_keys : Source → List String
  | _ => ["email", "password"]

/-- Witness for C4 amended: a JSON allow-list of `{email}` against request
keys `{email, password}` raises with exactly `{password}`. -/
theorem allowlist_amended_witness :
    ∃ e ∈ [(Source.json, ["email"])],
      e.1 = FieldsErr.source ⟨["password"], Source.json⟩ ∧
      demo_request_keys e.1 ≠ [] ∧ e.2 ≠ [] ∧
      FieldsErr.fields ⟨["password"], Source.json⟩ =
        (demo_request_keys e.1).filter (fun k => ¬ e.2.contains k) ∧
      FieldsErr.fields ⟨["password"], Source.json⟩ ≠ [] :=
  (allowlist_amended [(Source.json, ["email"])] demo_request_keys).2
    ⟨["password"], Source.json⟩ (by decide)

/-- When every value of a mapping is a scalar, the descent over its items
collects nothing further. -/
theorem collect_fields_flat (max_depth d : Nat) :
    ∀ fields : List (String × JsonVal), (∀ e ∈ fields, is_container e.2 = false) →
      collect_fields max_depth d fields = Except.ok [] := by
  intro fields
  induction fields with
  | nil => intro _; rfl
  | cons hd tl ih =>
    intro h
    obtain ⟨k, v⟩ := hd
    have hv : is_container v = false := h (k, v) (List.mem_cons_self _ _)
    have htl := ih (fun e he => h e (List.mem_cons_of_mem _ he))
    cases v with
    | scalar s => simp [collect_fields, collect_go, htl]
    | obj f2 => simp [is_container] at hv
    | arr i2 => simp [is_container] at hv

/-- Claim C8 counterexample: for the JSON params `{"a": {"b": "v"}}` the
collected key set is `{a, b}` — it also contains the nested key `b` — while
the set of top-level keys is just `{a}`. -/
theorem context_keys_cex :
    collect_keys 15 (JsonVal.obj [("a", JsonVal.obj [("b", JsonVal.scalar "v")])]) =
      Except.ok ["a", "b"] ∧
    spec_top_level_keys (JsonVal.obj [("a", JsonVal.obj [("b", JsonVal.scalar "v")])]) =
      ["a"] ∧
    "b" ∈ ["a", "b"] ∧ "b" ∉ (["a"] : List String) := by
  refine ⟨rfl, rfl, by decide, by decide⟩

/-- Claim C8 amended: the key set `Context` derives from a parameter mapping is
the union of the mapping keys at every nesting level reached within depth
15 — it always contains the top-level keys and equals exactly them only
when no value is itself a container — and a container nested beyond depth
15 makes the descent raise `ValueError` instead. -/
theorem context_keys_amended (fields : List (String × JsonVal)) :
    ((∀ e ∈ fields, is_container e.2 = false) →
      collect_keys 15 (JsonVal.obj fields) = Except.ok (fields.map Prod.fst)) ∧
    (∀ l, collect_keys 15 (JsonVal.obj fields) = Except.ok l →
      ∀ k ∈ fields.map Prod.fst, k ∈ l) ∧
    collect_keys 15 (nested_obj 17) = Except.error "keys collection max_depth exceeded" := by
  refine ⟨fun hflat => ?_, fun l hl k hk => ?_, by rfl⟩
  · simp [collect_keys, collect_go, collect_fields_flat 15 1 fields hflat]
  · simp only [collect_keys, collect_go] at hl
    rw [if_neg (by decide)] at hl
    cases hcf : collect_fields 15 1 fields with
    | ok rest =>
      rw [hcf] at hl
      injection hl with h2
      subst h2
      exact List.mem_append_left _ hk
    | error e =>
      rw [hcf] at hl
      cases hl

/-- Witness for C8 amended: a flat two-key query mapping yields exactly its
top-level keys. -/
theorem context_keys_amended_witness :
    collect_keys 15 (JsonVal.obj [("q", JsonVal.scalar "1"), ("page", JsonVal.scalar "2")]) =
      Except.ok ["q", "page"] :=
  (context_keys_amended [("q", JsonVal.scalar "1"), ("page", JsonVal.scalar "2")]).1
    (by decide)
